import Mathlib

/-!
Verification of the misis-recsys FAQ retrieval system.

The repository ships `config.py` (environment-backed configuration) and
`test_bot.py` (a validation driver).  The retrieval engine itself
(`faq_embeddings_db.py`, `build_index.py`) is described by the specification
but its source is not present; the definitions below marked
"Modelled from the spec" embed that component faithfully from the
specification's words.  `config.py` and `test_bot.py` are embedded directly
from their source.
-/

namespace MisisRecsys

/-- One knowledge-base entry, as described in the data model: `id` (unique
scalar, modelled as `Nat`), the category labels, the question and answer
texts, and free-form tags. -/
structure FaqRecord where
  id : Nat
  block : String
  subblock : String
  question : String
  answer : String
  tags : List String
deriving DecidableEq, Repr

/-- A raw dataset record before validation: every field may be absent. -/
structure RawRecord where
  id : Option Nat
  block : Option String
  subblock : Option String
  question : Option String
  answer : Option String
  tags : Option (List String)
deriving DecidableEq, Repr

/-- The error taxonomy of the engine (spec section 7). -/
inductive EngineError where
  | dataFormatError
  | indexNotBuiltError
  | staleIndexError
  | indexCorruptError
  | buildInProgressError
deriving DecidableEq, Repr

/-- Modelled from the spec: validation of a single record by the Dataset
Loader (`faq_embeddings_db.py`, not under version control here).  A record
parses exactly when the five required fields `id`, `block`, `subblock`,
`question`, `answer` are present; `tags` is optional metadata. -/
def parseRecord (r : RawRecord) : Option FaqRecord :=
  match r.id, r.block, r.subblock, r.question, r.answer with
  | some i, some b, some sb, some q, some a =>
      some ⟨i, b, sb, q, a, r.tags.getD []⟩
  | _, _, _, _, _ => none

/-- Modelled from the spec: parsing the ordered record sequence.  A record
missing a required field is a load-time failure for the whole dataset
(`DataFormatError`), never a per-record skip. -/
def parseAll : List RawRecord → Except EngineError (List FaqRecord)
  | [] => .ok []
  | r :: rs =>
    match parseRecord r with
    | none => .error .dataFormatError
    | some rec =>
      match parseAll rs with
      | .error e => .error e
      | .ok rest => .ok (rec :: rest)

/-- Modelled from the spec: first-occurrence-wins duplicate-`id` handling.
`seen` holds the ids already kept; the boolean is the `DataQualityWarning`
flag, raised (non-fatally) whenever a later duplicate is skipped. -/
def dedupById (seen : List Nat) : List FaqRecord → List FaqRecord × Bool
  | [] => ([], false)
  | r :: rs =>
    if r.id ∈ seen then
      ((dedupById seen rs).1, true)
    else
      (r :: (dedupById (r.id :: seen) rs).1, (dedupById (r.id :: seen) rs).2)

/-- Modelled from the spec: the Dataset Loader.  `none` stands for a source
whose top-level container key is absent (`DataFormatError`); otherwise every
record must validate, then duplicate ids are dropped first-occurrence-wins,
returning the records together with the `DataQualityWarning` flag. -/
def loadDataset (data : Option (List RawRecord)) :
    Except EngineError (List FaqRecord × Bool) :=
  match data with
  | none => .error .dataFormatError
  | some raws =>
    match parseAll raws with
    | .error e => .error e
    | .ok recs => .ok (dedupById [] recs)

/-- Modelled from the spec: the flat list of question texts, computed on
demand from the loaded records, in source order. -/
def getAllQuestions (recs : List FaqRecord) : List String :=
  recs.map FaqRecord.question

/-- Modelled from the spec: the distinct block names of the loaded records. -/
def getBlocks (recs : List FaqRecord) : List String :=
  (recs.map FaqRecord.block).dedup

/-- An embedding vector; the numeric field is modelled by `ℚ`. -/
abbrev Vec := List ℚ

/-- Inner-product similarity between two vectors. -/
def dotProduct (u v : Vec) : ℚ :=
  (List.zipWith (fun a b => a * b) u v).sum

/-- Modelled from the spec: the Vector Index, storing each record's vector
tagged with its record id, in insertion order. -/
structure VectorIndex where
  entries : List (Nat × Vec)
deriving DecidableEq

/-- Modelled from the spec: nearest-neighbour search.  Every entry is scored
by inner-product similarity with the query, sorted descending by score
(insertion sort is stable, so ties are broken by insertion order), and the
first `topK` results are returned; `topK` larger than the index size clamps
to the index size. -/
def searchIndex (idx : VectorIndex) (q : Vec) (topK : Nat) : List (Nat × ℚ) :=
  let scored := idx.entries.map (fun e => (e.1, dotProduct q e.2))
  (List.insertionSort (fun x y => y.2 ≤ x.2) scored).take topK

/-- Modelled from the spec: the persisted artifact — the position→id mapping
plus the raw vectors, written together as one bundle. -/
structure IndexArtifact where
  ids : List Nat
  vectors : List Vec
deriving DecidableEq

/-- Modelled from the spec: persisting an index writes the position→id
mapping and the vectors of its entries. -/
def saveIndex (idx : VectorIndex) : IndexArtifact :=
  ⟨idx.entries.map Prod.fst, idx.entries.map Prod.snd⟩

/-- Modelled from the spec: restoring a persisted artifact.  A mapping size
that disagrees with the vector count is rejected as `IndexCorruptError`;
otherwise the entries are reassembled in order. -/
def loadIndex (a : IndexArtifact) : Except EngineError VectorIndex :=
  if a.ids.length = a.vectors.length then
    .ok ⟨a.ids.zip a.vectors⟩
  else
    .error .indexCorruptError

/-- Modelled from the spec: the Retrieval Engine state — the loaded dataset,
the optional in-memory index (`none` until a build or load succeeds), and
the build-in-progress exclusion flag. -/
structure Engine where
  records : List FaqRecord
  index : Option VectorIndex
  building : Bool
deriving DecidableEq

/-- Modelled from the spec: a fresh engine right after dataset loading —
no index yet, no build in progress. -/
def initEngine (recs : List FaqRecord) : Engine :=
  ⟨recs, none, false⟩

/-- Modelled from the spec: building the Vector Index from scratch — every
record's question is embedded and tagged with the record id, in dataset
order.  The embedding provider is an abstract capability `embed`. -/
def buildVectorIndex (embed : String → Vec) (recs : List FaqRecord) :
    VectorIndex :=
  ⟨recs.map (fun r => (r.id, embed r.question))⟩

/-- Modelled from the spec: entering a build.  A build already in progress
on the same instance is rejected with `BuildInProgressError`; otherwise the
exclusion flag is taken. -/
def beginBuild (e : Engine) : Except EngineError Engine :=
  if e.building then .error .buildInProgressError
  else .ok { e with building := true }

/-- Modelled from the spec: completing a build — the freshly built index
fully replaces the previous one and the exclusion flag is released. -/
def finishBuild (embed : String → Vec) (e : Engine) : Engine :=
  { e with index := some (buildVectorIndex embed e.records), building := false }

/-- Modelled from the spec: the synchronous `build_index` operation. -/
def buildIndexOp (embed : String → Vec) (e : Engine) :
    Except EngineError Engine :=
  match beginBuild e with
  | .error err => .error err
  | .ok started => .ok (finishBuild embed started)

/-- Modelled from the spec: the consumer-facing `search`.  Querying an
engine on which no index has been built or loaded fails with
`IndexNotBuiltError`; otherwise the query text is embedded and the index
searched. -/
def searchOp (e : Engine) (embed : String → Vec) (q : String) (topK : Nat) :
    Except EngineError (List (Nat × ℚ)) :=
  match e.index with
  | none => .error .indexNotBuiltError
  | some idx => .ok (searchIndex idx (embed q) topK)

/-- The bot configuration read from the environment (`config.py`). -/
structure BotConfig where
  botToken : Option String
  faqJsonPath : String
  faqIndexPath : String
deriving DecidableEq, Repr

/-- `os.getenv(key, default)`: the environment is a partial map from
variable names to values; an unset variable yields the default. -/
def getenvD (env : String → Option String) (key dflt : String) : String :=
  (env key).getD dflt

/-- `config.py`: `BOT_TOKEN = os.getenv("BOT_TOKEN")`,
`FAQ_JSON_PATH = os.getenv("FAQ_JSON_PATH", "faq.json")`,
`FAQ_INDEX_PATH = os.getenv("FAQ_INDEX_PATH", "data/faq_index")`.
A total function of the environment: no file is consulted. -/
def loadConfig (env : String → Option String) : BotConfig :=
  { botToken := env "BOT_TOKEN"
    faqJsonPath := getenvD env "FAQ_JSON_PATH" "faq.json"
    faqIndexPath := getenvD env "FAQ_INDEX_PATH" "data/faq_index" }

/-- `test_bot.py` `main()`: gathers the five test results into the summary
mapping, prints each, and returns `0` when all passed, else `1`. -/
def mainExitCode (jsonStructure configOk embeddingsDb dependencies
    pathIssues : Bool) : Nat :=
  let results : List (String × Bool) :=
    [("JSON Structure", jsonStructure),
     ("Configuration", configOk),
     ("Embeddings DB", embeddingsDb),
     ("Dependencies", dependencies),
     ("Path Issues", pathIssues)]
  let allPassed := results.all (fun r => r.2)
  if allPassed then 0 else 1

/-- Parsing preserves the record count: a dataset that validates yields one
`FaqRecord` per raw record. -/
theorem parseAll_ok_length (raws : List RawRecord) (recs : List FaqRecord)
    (h : parseAll raws = Except.ok recs) : recs.length = raws.length := by
  induction raws generalizing recs with
  | nil =>
    unfold parseAll at h
    simp only [Except.ok.injEq] at h
    subst h
    rfl
  | cons r rs ih =>
    unfold parseAll at h
    cases hp : parseRecord r with
    | none => rw [hp] at h; exact absurd h (by simp)
    | some rec =>
      rw [hp] at h
      cases hq : parseAll rs with
      | error e => rw [hq] at h; exact absurd h (by simp)
      | ok rest =>
        rw [hq] at h
        simp only [Except.ok.injEq] at h
        subst h
        simp [ih rest hq]

/-- Deduplication is the identity on a record list whose ids are pairwise
distinct and disjoint from the ids already seen, and raises no warning. -/
theorem dedupById_of_nodup (l : List FaqRecord) :
    ∀ (seen : List Nat), (∀ x ∈ l, x.id ∉ seen) →
      ((l.map FaqRecord.id).Nodup) → dedupById seen l = (l, false) := by
  induction l with
  | nil => intro seen _ _; rfl
  | cons r rs ih =>
    intro seen hseen hnodup
    have hr : r.id ∉ seen := hseen r (List.mem_cons_self r rs)
    simp only [List.map_cons, List.nodup_cons] at hnodup
    have hseen' : ∀ x ∈ rs, x.id ∉ r.id :: seen := by
      intro x hx
      simp only [List.mem_cons, not_or]
      exact ⟨fun hxr => hnodup.1 (by rw [← hxr]; exact List.mem_map.mpr ⟨x, hx, rfl⟩),
             hseen x (List.mem_cons_of_mem r hx)⟩
    unfold dedupById
    rw [if_neg hr, ih (r.id :: seen) hseen' hnodup.2]

/-- C3: loading fails for the whole dataset with `DataFormatError` whenever
any record (at any position) is missing one of the required fields `id`,
`block`, `subblock`, `question`, `answer`; nothing is loaded and no
per-record skipping occurs.  The same error is returned when the top-level
container key is absent. -/
theorem load_missing_field_fails (raws : List RawRecord) (r : RawRecord)
    (hmem : r ∈ raws)
    (hmiss : r.id = none ∨ r.block = none ∨ r.subblock = none ∨
             r.question = none ∨ r.answer = none) :
    loadDataset (some raws) = Except.error EngineError.dataFormatError ∧
      loadDataset none = Except.error EngineError.dataFormatError := by
  have hr : parseRecord r = none := by
    rcases r with ⟨i, b, sb, q, ans, t⟩
    cases i <;> cases b <;> cases sb <;> cases q <;> cases ans <;>
      simp_all [parseRecord]
  have hall : parseAll raws = Except.error EngineError.dataFormatError := by
    induction raws with
    | nil => cases hmem
    | cons x xs ih =>
      rcases List.mem_cons.mp hmem with h | h
      · subst h
        unfold parseAll
        rw [hr]
      · unfold parseAll
        cases hx : parseRecord x with
        | none => rfl
        | some rec => rw [ih h]
  refine ⟨?_, rfl⟩
  unfold loadDataset
  dsimp only
  rw [hall]

/-- C3 witness: a two-record dataset whose second record lacks `answer`
is rejected whole. -/
theorem load_missing_field_fails_witness :
    (⟨some 2, some "b", some "s", some "q", none, none⟩ : RawRecord) ∈
        [(⟨some 1, some "b", some "s", some "q", some "a", none⟩ : RawRecord),
         ⟨some 2, some "b", some "s", some "q", none, none⟩] ∧
      loadDataset (some
        [(⟨some 1, some "b", some "s", some "q", some "a", none⟩ : RawRecord),
         ⟨some 2, some "b", some "s", some "q", none, none⟩]) =
        Except.error EngineError.dataFormatError :=
  ⟨by simp,
   (load_missing_field_fails
      [(⟨some 1, some "b", some "s", some "q", some "a", none⟩ : RawRecord),
       ⟨some 2, some "b", some "s", some "q", none, none⟩]
      ⟨some 2, some "b", some "s", some "q", none, none⟩
      (by simp) (by simp)).1⟩

/-- C4: a dataset of N well-formed records with pairwise-distinct ids loads
to exactly those N `FaqRecord`s (no warning), and `get_all_questions`
returns exactly N question strings, in source order. -/
theorem load_wellformed_count (raws : List RawRecord) (recs : List FaqRecord)
    (hparse : parseAll raws = Except.ok recs)
    (hnodup : (recs.map FaqRecord.id).Nodup) :
    loadDataset (some raws) = Except.ok (recs, false) ∧
      recs.length = raws.length ∧
      getAllQuestions recs = recs.map FaqRecord.question ∧
      (getAllQuestions recs).length = raws.length := by
  have hd := dedupById_of_nodup recs [] (by simp) hnodup
  have hlen := parseAll_ok_length raws recs hparse
  refine ⟨?_, hlen, rfl, ?_⟩
  · unfold loadDataset
    dsimp only
    rw [hparse]
    dsimp only
    rw [hd]
  · simp [getAllQuestions, hlen]

/-- C4 witness: a concrete two-record dataset loads to two records and two
questions. -/
theorem load_wellformed_count_witness :
    parseAll
        [(⟨some 1, some "b1", some "s1", some "q1", some "a1", none⟩ : RawRecord),
         ⟨some 2, some "b2", some "s2", some "q2", some "a2", some ["t"]⟩] =
      Except.ok
        [(⟨1, "b1", "s1", "q1", "a1", []⟩ : FaqRecord),
         ⟨2, "b2", "s2", "q2", "a2", ["t"]⟩] ∧
      loadDataset (some
        [(⟨some 1, some "b1", some "s1", some "q1", some "a1", none⟩ : RawRecord),
         ⟨some 2, some "b2", some "s2", some "q2", some "a2", some ["t"]⟩]) =
        Except.ok
          ([(⟨1, "b1", "s1", "q1", "a1", []⟩ : FaqRecord),
            ⟨2, "b2", "s2", "q2", "a2", ["t"]⟩], false) :=
  ⟨rfl,
   (load_wellformed_count
      [(⟨some 1, some "b1", some "s1", some "q1", some "a1", none⟩ : RawRecord),
       ⟨some 2, some "b2", some "s2", some "q2", some "a2", some ["t"]⟩]
      [(⟨1, "b1", "s1", "q1", "a1", []⟩ : FaqRecord),
       ⟨2, "b2", "s2", "q2", "a2", ["t"]⟩]
      rfl (by decide)).1⟩

/-- C5: searching a built index of size M with `top_k` greater than M
returns exactly M results — the requested `top_k` silently clamps to the
index size (the operation is total, so no error is possible). -/
theorem search_topk_clamps (idx : VectorIndex) (q : Vec) (k : Nat)
    (h : idx.entries.length < k) :
    (searchIndex idx q k).length = idx.entries.length := by
  simp only [searchIndex, List.length_take, List.length_insertionSort,
    List.length_map]
  omega

/-- C5 witness: a one-entry index queried with `top_k = 3` yields one
result. -/
theorem search_topk_clamps_witness :
    (VectorIndex.mk [(1, [(1 : ℚ)])]).entries.length < 3 ∧
      (searchIndex (VectorIndex.mk [(1, [(1 : ℚ)])]) [1] 3).length =
        (VectorIndex.mk [(1, [(1 : ℚ)])]).entries.length :=
  ⟨by decide, search_topk_clamps _ [1] 3 (by decide)⟩

/-- C1: on every engine whose index slot is empty — the state of any
instance on which neither `build_index` nor `load_index` has succeeded —
`search` fails with `IndexNotBuiltError`, for every query and `top_k` and
regardless of the loaded dataset. -/
theorem search_before_build_fails (e : Engine) (embed : String → Vec)
    (q : String) (k : Nat) (h : e.index = none) :
    searchOp e embed q k = Except.error EngineError.indexNotBuiltError := by
  unfold searchOp
  rw [h]

/-- C1 witness: a freshly initialised engine with a nonempty dataset
rejects a search. -/
theorem search_before_build_fails_witness :
    searchOp (initEngine [⟨1, "b", "s", "q", "a", []⟩]) (fun _ => [1]) "hi" 3
      = Except.error EngineError.indexNotBuiltError :=
  search_before_build_fails _ _ _ _ rfl

/-- C8: reading the configuration is a total function of the environment;
when `FAQ_JSON_PATH` and `FAQ_INDEX_PATH` are unset the dataset and index
locations default to `"faq.json"` and `"data/faq_index"`. -/
theorem config_defaults (env : String → Option String)
    (h1 : env "FAQ_JSON_PATH" = none) (h2 : env "FAQ_INDEX_PATH" = none) :
    (loadConfig env).faqJsonPath = "faq.json" ∧
      (loadConfig env).faqIndexPath = "data/faq_index" := by
  simp [loadConfig, getenvD, h1, h2]

/-- C8 witness: the empty environment yields the two defaults. -/
theorem config_defaults_witness :
    (loadConfig (fun _ => none)).faqJsonPath = "faq.json" ∧
      (loadConfig (fun _ => none)).faqIndexPath = "data/faq_index" :=
  config_defaults (fun _ => none) rfl rfl

/-- C10: the validation driver returns exit code 0 exactly when all five
tests pass, and 1 exactly otherwise; it is a total function of the five
results. -/
theorem main_exit_code_spec :
    ∀ a b c d e : Bool,
      (mainExitCode a b c d e = 0 ↔ (a && b && c && d && e) = true) ∧
      (mainExitCode a b c d e = 1 ↔ (a && b && c && d && e) = false) := by
  decide

/-- C10 witness: all five tests passing yields exit code 0; one failure
yields exit code 1. -/
theorem main_exit_code_spec_witness :
    mainExitCode true true true true true = 0 ∧
      mainExitCode true true true true false = 1 :=
  ⟨(main_exit_code_spec true true true true true).1.mpr rfl,
   (main_exit_code_spec true true true true false).2.mpr rfl⟩

/-- Zipping the two projection lists of a pair list reassembles it. -/
theorem zip_fst_snd {α β : Type} :
    ∀ l : List (α × β), (l.map Prod.fst).zip (l.map Prod.snd) = l
  | [] => rfl
  | (a, b) :: t => by simp [zip_fst_snd t]

/-- C6: round-trip — building an index, persisting it and restoring the
artifact succeeds and yields an index whose search results (ranked ids and
scores) are identical, for every query and `top_k`, to those of the index
produced by `build_index` alone. -/
theorem build_save_load_roundtrip (embed : String → Vec)
    (recs : List FaqRecord) (q : Vec) (k : Nat) :
    ∃ idx, loadIndex (saveIndex (buildVectorIndex embed recs)) =
        Except.ok idx ∧
      searchIndex idx q k = searchIndex (buildVectorIndex embed recs) q k := by
  refine ⟨buildVectorIndex embed recs, ?_, rfl⟩
  unfold loadIndex saveIndex
  simp [zip_fst_snd]

/-- C7: idempotence — on an engine with no build in progress, `build_index`
succeeds, and running it again immediately returns exactly the same engine
state (the rebuilt index fully replaces the previous one), so every query
yields identical search results after the second build. -/
theorem build_index_idempotent (embed : String → Vec) (e : Engine)
    (h : e.building = false) :
    ∃ e', buildIndexOp embed e = Except.ok e' ∧
      buildIndexOp embed e' = Except.ok e' := by
  rcases e with ⟨recs, idx0, bld⟩
  cases bld
  · exact ⟨_, rfl, rfl⟩
  · exact Bool.noConfusion h

/-- C7 witness: a fresh engine over the empty dataset. -/
theorem build_index_idempotent_witness :
    (initEngine []).building = false ∧
      ∃ e', buildIndexOp (fun _ => [1]) (initEngine []) = Except.ok e' ∧
        buildIndexOp (fun _ => [1]) e' = Except.ok e' :=
  ⟨rfl, build_index_idempotent (fun _ => [1]) (initEngine []) rfl⟩

/-- C9: a `build_index` call issued while a build is already in progress on
the same instance fails with `BuildInProgressError` (no state is produced,
so nothing is corrupted), and the rejection is transient: once the
in-flight build finishes, a retry succeeds. -/
theorem concurrent_build_rejected (embed : String → Vec) (e : Engine)
    (h : e.building = true) :
    buildIndexOp embed e = Except.error EngineError.buildInProgressError ∧
      ∃ e', buildIndexOp embed (finishBuild embed e) = Except.ok e' := by
  rcases e with ⟨recs, idx0, bld⟩
  cases bld
  · exact Bool.noConfusion h
  · exact ⟨rfl, _, rfl⟩

/-- C9 witness: an engine mid-build rejects a second build, and a retry
after completion succeeds. -/
theorem concurrent_build_rejected_witness :
    (Engine.mk [] none true).building = true ∧
      buildIndexOp (fun _ => [1]) (Engine.mk [] none true) =
        Except.error EngineError.buildInProgressError :=
  ⟨rfl, (concurrent_build_rejected (fun _ => [1]) (Engine.mk [] none true) rfl).1⟩

/-- Walking past distinct-id records with the duplicate's id already seen:
the duplicate is skipped where it occurs, everything else is kept, and the
warning flag is raised. -/
theorem dedupById_skip_dup (r' : FaqRecord) (c b : List FaqRecord) :
    ∀ seen : List Nat, r'.id ∈ seen →
      (∀ x ∈ b ++ c, x.id ∉ seen) →
      ((b ++ c).map FaqRecord.id).Nodup →
      dedupById seen (b ++ (r' :: c)) = (b ++ c, true) := by
  induction b with
  | nil =>
    intro seen hdup hseen hnodup
    simp only [List.nil_append] at *
    unfold dedupById
    rw [if_pos hdup, dedupById_of_nodup c seen hseen hnodup]
  | cons x xs ih =>
    intro seen hdup hseen hnodup
    have hx : x.id ∉ seen := hseen x (by simp)
    simp only [List.cons_append, List.map_cons, List.nodup_cons] at hnodup
    have hseen' : ∀ y ∈ xs ++ c, y.id ∉ x.id :: seen := by
      intro y hy
      simp only [List.mem_cons, not_or]
      exact ⟨fun hyx => hnodup.1 (by rw [← hyx]; exact List.mem_map.mpr ⟨y, hy, rfl⟩),
             hseen y (List.mem_cons_of_mem _ hy)⟩
    show dedupById seen (x :: (xs ++ (r' :: c))) = (x :: (xs ++ c), true)
    unfold dedupById
    rw [if_neg hx, ih (x.id :: seen) (List.mem_cons_of_mem _ hdup) hseen' hnodup.2]

/-- A record list containing exactly one duplicated id (the record at the
later position `r'` duplicates the earlier `r`, all other ids pairwise
distinct) deduplicates to the list with the later duplicate removed, first
occurrence kept in place, warning raised. -/
theorem dedupById_one_dup (r r' : FaqRecord) (b c : List FaqRecord)
    (hid : r'.id = r.id) :
    ∀ (a : List FaqRecord) (seen : List Nat),
      (∀ x ∈ a ++ (r :: (b ++ c)), x.id ∉ seen) →
      ((a ++ (r :: (b ++ c))).map FaqRecord.id).Nodup →
      dedupById seen (a ++ (r :: (b ++ (r' :: c)))) =
        (a ++ (r :: (b ++ c)), true) := by
  intro a
  induction a with
  | nil =>
    intro seen hseen hnodup
    simp only [List.nil_append] at *
    have hr : r.id ∉ seen := hseen r (by simp)
    simp only [List.map_cons, List.nodup_cons] at hnodup
    have hseen' : ∀ y ∈ b ++ c, y.id ∉ r.id :: seen := by
      intro y hy
      simp only [List.mem_cons, not_or]
      exact ⟨fun hyx => hnodup.1 (by rw [← hyx]; exact List.mem_map.mpr ⟨y, hy, rfl⟩),
             hseen y (List.mem_cons_of_mem _ hy)⟩
    show dedupById seen (r :: (b ++ (r' :: c))) = (r :: (b ++ c), true)
    unfold dedupById
    rw [if_neg hr,
      dedupById_skip_dup r' c b (r.id :: seen)
        (by rw [hid]; exact List.mem_cons_self _ _) hseen' hnodup.2]
  | cons x xs ih =>
    intro seen hseen hnodup
    have hx : x.id ∉ seen := hseen x (by simp)
    simp only [List.cons_append, List.map_cons, List.nodup_cons] at hnodup
    have hseen' : ∀ y ∈ xs ++ (r :: (b ++ c)), y.id ∉ x.id :: seen := by
      intro y hy
      simp only [List.mem_cons, not_or]
      exact ⟨fun hyx => hnodup.1 (by rw [← hyx]; exact List.mem_map.mpr ⟨y, hy, rfl⟩),
             hseen y (List.mem_cons_of_mem _ hy)⟩
    show dedupById seen (x :: (xs ++ (r :: (b ++ (r' :: c))))) =
      (x :: (xs ++ (r :: (b ++ c))), true)
    unfold dedupById
    rw [if_neg hx, ih (x.id :: seen) hseen' hnodup.2]

/-- C2: a dataset of N records in which exactly two share an id (the record
`r'` repeats the id of the earlier `r`; every other id pairwise distinct)
loads successfully keeping the first occurrence in its order position and
skipping the later duplicate, with N−1 records and the non-fatal
`DataQualityWarning` flag raised instead of an error. -/
theorem duplicate_id_first_wins (raws : List RawRecord)
    (a b c : List FaqRecord) (r r' : FaqRecord)
    (hparse : parseAll raws = Except.ok (a ++ (r :: (b ++ (r' :: c)))))
    (hid : r'.id = r.id)
    (hnodup : ((a ++ (r :: (b ++ c))).map FaqRecord.id).Nodup) :
    loadDataset (some raws) = Except.ok (a ++ (r :: (b ++ c)), true) ∧
      (a ++ (r :: (b ++ c))).length = raws.length - 1 := by
  have hd := dedupById_one_dup r r' b c hid a [] (by simp) hnodup
  have hlen := parseAll_ok_length raws _ hparse
  constructor
  · unfold loadDataset
    dsimp only
    rw [hparse]
    dsimp only
    rw [hd]
  · simp only [List.length_append, List.length_cons] at hlen ⊢
    omega

/-- C2 witness: ids 1, 2, 1 — the third record (a duplicate of the first)
is skipped, two records remain, and the warning flag is set. -/
theorem duplicate_id_first_wins_witness :
    parseAll
        [(⟨some 1, some "b1", some "s1", some "q1", some "a1", none⟩ : RawRecord),
         ⟨some 2, some "b2", some "s2", some "q2", some "a2", none⟩,
         ⟨some 1, some "b3", some "s3", some "q3", some "a3", none⟩] =
      Except.ok
        [(⟨1, "b1", "s1", "q1", "a1", []⟩ : FaqRecord),
         ⟨2, "b2", "s2", "q2", "a2", []⟩,
         ⟨1, "b3", "s3", "q3", "a3", []⟩] ∧
      loadDataset (some
        [(⟨some 1, some "b1", some "s1", some "q1", some "a1", none⟩ : RawRecord),
         ⟨some 2, some "b2", some "s2", some "q2", some "a2", none⟩,
         ⟨some 1, some "b3", some "s3", some "q3", some "a3", none⟩]) =
        Except.ok
          ([(⟨1, "b1", "s1", "q1", "a1", []⟩ : FaqRecord),
            ⟨2, "b2", "s2", "q2", "a2", []⟩], true) :=
  ⟨rfl,
   (duplicate_id_first_wins
      [(⟨some 1, some "b1", some "s1", some "q1", some "a1", none⟩ : RawRecord),
       ⟨some 2, some "b2", some "s2", some "q2", some "a2", none⟩,
       ⟨some 1, some "b3", some "s3", some "q3", some "a3", none⟩]
      [] [(⟨2, "b2", "s2", "q2", "a2", []⟩ : FaqRecord)] []
      ⟨1, "b1", "s1", "q1", "a1", []⟩ ⟨1, "b3", "s3", "q3", "a3", []⟩
      rfl rfl (by decide)).1⟩

end MisisRecsys
